import Mathlib

/-!
Shallow embedding of the notebooklm-clone-api orchestration layer
(workspace metadata, single-slot RAG engine cache, document ingestion,
chat normalization, best-effort deletion) together with proofs of the
behavioural properties stated in its specification.

Machine-level integers do not occur in this code; identifiers are strings,
handles are modelled by natural numbers standing for object identity, and
Python exceptions are modelled by `Except String`.
-/

namespace NotebookLM

/-! ## Core state: `src/core/state.py`

The process-wide single-slot workspace-RAG cache.  A Python object held in
`current_workspace_rag` is modelled by a `Nat` identity (two builds never
produce the same identity, which we realise by threading a fresh counter).
-/

/-- The two module-level globals of `core/state.py`:
`current_workspace_id` and `current_workspace_rag`. -/
structure CacheSlot where
  current_workspace_id : Option String
  current_workspace_rag : Option Nat
  deriving Repr, DecidableEq

/-- The initial module state: both globals are `None`. -/
def CacheSlot.init : CacheSlot := ⟨none, none⟩

/-- `get_current_workspace_rag`: return the cached handle only when the
stored workspace id equals the requested one AND a handle is present
(the Python code tests the truthiness of both conditions); otherwise `None`. -/
def get_current_workspace_rag (s : CacheSlot) (workspace_id : String) : Option Nat :=
  if s.current_workspace_id = some workspace_id ∧ s.current_workspace_rag.isSome then
    s.current_workspace_rag
  else
    none

/-- `set_current_workspace_rag`: overwrite both globals with the new pair. -/
def set_current_workspace_rag (s : CacheSlot) (workspace_id : String) (rag : Nat) :
    CacheSlot :=
  let _ := s
  ⟨some workspace_id, some rag⟩

/-- `clear_current_workspace`: reset both globals to `None`. -/
def clear_current_workspace (s : CacheSlot) : CacheSlot :=
  let _ := s
  ⟨none, none⟩

/-- `get_current_workspace_id`. -/
def get_current_workspace_id (s : CacheSlot) : Option String :=
  s.current_workspace_id

/-- The cache-slot invariant: workspace id and engine handle are either
both present or both absent. -/
def SlotInv (s : CacheSlot) : Prop :=
  (s.current_workspace_id.isSome ∧ s.current_workspace_rag.isSome) ∨
  (s.current_workspace_id.isNone ∧ s.current_workspace_rag.isNone)

instance (s : CacheSlot) : Decidable (SlotInv s) := by
  unfold SlotInv; infer_instance

/-! ## Document mapping: `workspace_docs` in `src/core/state.py`

`workspace_docs : Dict[str, Dict[str, str]]` — workspace id to
(doc id to file path).  Python dicts preserve insertion order; we model each
dict as an association list with in-place update semantics. -/

/-- Association-list lookup (Python `d.get(k)` / `k in d`). -/
def alistGet {α : Type} (l : List (String × α)) (k : String) : Option α :=
  match l with
  | [] => none
  | (k', v) :: rest => if k' = k then some v else alistGet rest k

/-- Association-list insert-or-update (`d[k] = v`): an existing key keeps
its position, a new key is appended (Python dict insertion order). -/
def alistPut {α : Type} (l : List (String × α)) (k : String) (v : α) :
    List (String × α) :=
  match l with
  | [] => [(k, v)]
  | (k', v') :: rest =>
    if k' = k then (k', v) :: rest else (k', v') :: alistPut rest k v

/-- Association-list delete (`del d[k]`). -/
def alistDel {α : Type} (l : List (String × α)) (k : String) :
    List (String × α) :=
  match l with
  | [] => []
  | (k', v') :: rest =>
    if k' = k then rest else (k', v') :: alistDel rest k

/-- The global `workspace_docs` mapping. -/
abbrev DocsMap := List (String × List (String × String))

/-- `get_workspace_docs`: `workspace_docs.get(workspace_id, {})`. -/
def get_workspace_docs (m : DocsMap) (workspace_id : String) :
    List (String × String) :=
  (alistGet m workspace_id).getD []

/-- `add_workspace_doc`: create the inner dict if missing, then insert. -/
def add_workspace_doc (m : DocsMap) (workspace_id doc_id file_path : String) :
    DocsMap :=
  let m' := if (alistGet m workspace_id).isSome then m else alistPut m workspace_id []
  alistPut m' workspace_id (alistPut (get_workspace_docs m' workspace_id) doc_id file_path)

/-- `remove_workspace_doc`: delete the inner entry when both keys exist. -/
def remove_workspace_doc (m : DocsMap) (workspace_id doc_id : String) : DocsMap :=
  match alistGet m workspace_id with
  | none => m
  | some inner =>
    if (alistGet inner doc_id).isSome then
      alistPut m workspace_id (alistDel inner doc_id)
    else m

/-- `remove_workspace_docs`: drop the whole workspace entry. -/
def remove_workspace_docs (m : DocsMap) (workspace_id : String) : DocsMap :=
  alistDel m workspace_id

/-- `init_workspace_docs`: `workspace_docs[workspace_id] = {}`. -/
def init_workspace_docs (m : DocsMap) (workspace_id : String) : DocsMap :=
  alistPut m workspace_id []

/-- `get_workspace_doc_count`. -/
def get_workspace_doc_count (m : DocsMap) (workspace_id : String) : Nat :=
  (get_workspace_docs m workspace_id).length

/-! ## Configuration: `src/storage/storage_factory.py` -/

/-- The process environment (`os.getenv`): `none` when a variable is unset. -/
structure Env where
  getenv : String → Option String

/-- Python truthiness of an `os.getenv` result: `None` and `""` are falsy. -/
def envTruthy (v : Option String) : Bool :=
  match v with
  | none => false
  | some s => decide (s ≠ "")

/-- The `required_vars` list of `validate_external_storage_config`. -/
def required_vars : List String :=
  ["LLM_BINDING_API_KEY", "NEO4J_URI", "NEO4J_USERNAME", "NEO4J_PASSWORD",
   "POSTGRES_URI"]

/-- `validate_external_storage_config`: collect EVERY required variable whose
value is falsy, in order, without stopping at the first. -/
def validate_external_storage_config (env : Env) : List String :=
  required_vars.filter (fun v => !envTruthy (env.getenv v))

/-! ## Errors and engine oracle -/

/-- FastAPI `HTTPException(status, detail)`. -/
structure HTTPError where
  status : Nat
  detail : String
  deriving Repr, DecidableEq

/-- Behaviour of the external RAG engine, supplied as an oracle: what
`process_document_complete` and `aquery` do on given arguments
(`.error` models a raised exception). -/
structure Engine where
  process_document_complete : String → String → String → String → Except String Unit
  aquery : String → String → Except String String

/-- Capability method surface of a built LightRAG handle's sub-storages,
as probed by `hasattr` in `delete_strategies.py`.  `none` models an absent
attribute; a present method may raise (`.error`). -/
structure VectorStorage where
  delete_by_doc_id : Option (String → Except String Unit) := none
  delete_collection : Option (String → Except String Unit) := none

/-- Graph-store capability surface. -/
structure GraphStorage where
  delete_by_doc_id : Option (String → Except String Unit) := none
  delete_workspace : Option (String → Except String Unit) := none

/-- Key-value-store capability surface. -/
structure KVStorage where
  delete_by_doc_id : Option (String → Except String Unit) := none
  delete_workspace : Option (String → Except String Unit) := none

/-- Doc-status-store capability surface. -/
structure DocStatusStorage where
  mark_deleted : Option (String → Except String Unit) := none
  delete_workspace : Option (String → Except String Unit) := none

/-- The duck-typed attribute surface of a LightRAG handle that the deletion
coordinator probes.  `none` for a sub-storage models
`hasattr(rag, ...) == False`. -/
structure LightRAGHandle where
  vector_storage : Option VectorStorage := none
  graph_storage : Option GraphStorage := none
  kv_storage : Option KVStorage := none
  doc_status_storage : Option DocStatusStorage := none
  adelete_by_doc_id : Option (String → Except String Unit) := none
  delete_graph_entities_by_doc_id : Option (String → Except String Unit) := none
  kv_delete_profiles_by_doc_id : Option (String → Except String Unit) := none
  mark_doc_deleted : Option (String → Except String Unit) := none
  aclear_cache : Option (Except String Unit) := none

/-- Everything external the services consult: the environment, the outcome of
the engine-construction `try` block, the engine behaviour, the capability
surface of the built handle, and `WORKDIR_BASE`. -/
structure SysEnv where
  env : Env
  build_ok : Except String Unit
  engine : Engine
  lightrag : LightRAGHandle
  base : String

/-! ## Engine factory and single-slot cache:
`src/services/workspace_service.py` -/

/-- `initialize_workspace_rag`: validate the configuration first (raising
`HTTPException(500, ...)` that enumerates ALL missing variables), then run the
construction block (whose failure is wrapped in `HTTPException(500, ...)`).
`fresh` is the identity of the newly constructed engine object. -/
def initialize_workspace_rag (sys : SysEnv) (workspace_id : String) (fresh : Nat) :
    Except HTTPError Nat :=
  let missing := validate_external_storage_config sys.env
  if missing ≠ [] then
    .error ⟨500, "External storage configuration incomplete. Missing: " ++
      String.intercalate ", " missing⟩
  else
    match sys.build_ok with
    | .error e => .error ⟨500, "Failed to create RAG instance for workspace " ++
        workspace_id ++ ": " ++ e⟩
    | .ok _ => .ok fresh

/-- `get_or_create_workspace_rag`: return the cached handle when the slot
matches, otherwise build a new one and store it as the sole cache entry. -/
def get_or_create_workspace_rag (sys : SysEnv) (s : CacheSlot) (fresh : Nat)
    (workspace_id : String) : Except HTTPError (Nat × CacheSlot) :=
  match get_current_workspace_rag s workspace_id with
  | some cached_rag => .ok (cached_rag, s)
  | none =>
    match initialize_workspace_rag sys workspace_id fresh with
    | .error e => .error e
    | .ok rag => .ok (rag, set_current_workspace_rag s workspace_id rag)

/-! ## Paths and filesystem: `src/app_init/lightrag_boot.py` -/

/-- The dictionary returned by `ensure_workspace_dirs`. -/
structure WsPaths where
  workspace_dir : String
  uploads : String
  output : String
  deriving Repr, DecidableEq

/-- `ensure_workspace_dirs` path computation:
`{base}/{workspace_id}`, its `uploads` and `output` children. -/
def ensure_workspace_dirs (base workspace_id : String) : WsPaths :=
  let d := base ++ "/" ++ workspace_id
  ⟨d, d ++ "/uploads", d ++ "/output"⟩

/-- The on-disk state: the set of existing paths, as a list. -/
abbrev FS := List String

/-- `mkdir(exist_ok=True)`: add a path if absent. -/
def fsAdd (fs : FS) (p : String) : FS :=
  if p ∈ fs then fs else p :: fs

/-- The directory-creation side effect of `ensure_workspace_dirs`. -/
def ensureDirsFS (fs : FS) (paths : WsPaths) : FS :=
  fsAdd (fsAdd (fsAdd fs paths.workspace_dir) paths.uploads) paths.output

/-- `pre` is a leading segment of the character list. -/
def listPre : List Char → List Char → Bool
  | [], _ => true
  | _ :: _, [] => false
  | a :: as, b :: bs => a = b && listPre as bs

/-- Python `s.startswith(pre)`. -/
def strStarts (s pre : String) : Bool :=
  listPre pre.data s.data

/-- `shutil.rmtree(dir)`: remove the directory and everything below it. -/
def rmtree (fs : FS) (dir : String) : FS :=
  fs.filter (fun p => !(p = dir ∨ strStarts p (dir ++ "/")))

/-! ## Document ingestion: `src/services/document_service.py` -/

/-- An uploaded file (`fastapi.UploadFile`): its client filename and bytes. -/
structure UploadFile where
  filename : String
  content : String
  deriving Repr, DecidableEq

/-- The dict returned by `save_uploaded_file`. -/
structure SavedFile where
  id : String
  filename : String
  file_path : String
  dest_dir : String
  deriving Repr, DecidableEq

/-- `save_uploaded_file`: place the bytes at
`{uploads}/{doc_id}/{filename}` and record the mapping entry.  The generated
`uuid4` is passed in as `doc_id`. -/
def save_uploaded_file (docs : DocsMap) (fs : FS) (workspace_id : String)
    (file : UploadFile) (paths : WsPaths) (doc_id : String) :
    SavedFile × DocsMap × FS :=
  let dest_dir := paths.uploads ++ "/" ++ doc_id
  let dest_path := dest_dir ++ "/" ++ file.filename
  let fs1 := fsAdd (fsAdd fs dest_dir) dest_path
  let docs1 := add_workspace_doc docs workspace_id doc_id dest_path
  (⟨doc_id, file.filename, dest_path, dest_dir⟩, docs1, fs1)

/-- The dict returned by `process_document_with_rag`. -/
structure ProcResult where
  status : String
  doc_id : String
  file_path : String
  error : Option String
  message : String
  deriving Repr, DecidableEq

/-- `process_document_with_rag`: call the engine; an engine exception is
caught and turned into a `status = "error"` record carrying the message. -/
def process_document_with_rag (eng : Engine)
    (file_path output_dir doc_id parse_method : String) : ProcResult :=
  match eng.process_document_complete file_path output_dir doc_id parse_method with
  | .ok _ =>
    ⟨"success", doc_id, file_path, none,
      "Document " ++ doc_id ++ " processed successfully"⟩
  | .error e =>
    ⟨"error", doc_id, file_path, some e,
      "Failed to process document " ++ doc_id⟩

/-- One element of the `uploaded_docs` list built by
`process_uploaded_files`. -/
structure DocResult where
  id : String
  filename : String
  processing_status : String
  processing_message : String
  error : Option String
  deriving Repr, DecidableEq

/-- `process_uploaded_files`: for each file in order, save it (mapping entry
included) and then hand it to the engine; the per-file result records status
`success`/`error`.  `ids` is the stream of generated uuid4 values. -/
def process_uploaded_files (eng : Engine) (workspace_id : String)
    (files : List UploadFile) (ids : List String) (paths : WsPaths)
    (docs : DocsMap) (fs : FS) : List DocResult × DocsMap × FS :=
  match files, ids with
  | [], _ => ([], docs, fs)
  | _, [] => ([], docs, fs)
  | f :: more, i :: moreIds =>
    let sv := save_uploaded_file docs fs workspace_id f paths i
    let pr := process_document_with_rag eng sv.1.file_path paths.output sv.1.id "auto"
    let dr : DocResult :=
      ⟨sv.1.id, sv.1.filename, pr.status, pr.message,
        if pr.status = "error" then pr.error else none⟩
    let rest := process_uploaded_files eng workspace_id more moreIds paths sv.2.1 sv.2.2
    (dr :: rest.1, rest.2.1, rest.2.2)

/-! ## Chat: `src/services/chat_service.py` -/

/-- Python truthiness of an optional string (`not question`). -/
def truthyOptStr (q : Option String) : Bool :=
  match q with
  | none => false
  | some s => decide (s ≠ "")

/-- The parsed JSON body of a chat request.  `attachments` stands for any
file-attachment fields the client put in the JSON: the code never reads
them (`get_chat_data` only reads `question` and `mode`). -/
structure JsonBody where
  question : Option String
  mode : Option String
  attachments : List UploadFile
  deriving Repr, DecidableEq

/-- A chat HTTP request as the dependency sees it: the `Content-Type`
header, the JSON body when it parses (`none` = `request.json()` raises), and
the form fields (with `Form(default="hybrid")` already applied to `mode`). -/
structure ChatRequest where
  content_type : String
  json_body : Option JsonBody
  form_question : Option String
  form_mode : String
  form_files : List UploadFile
  deriving Repr, DecidableEq

/-- The normalized internal chat-request record returned by
`get_chat_data`. -/
structure ChatData where
  question : Option String
  mode : String
  files : List UploadFile
  deriving Repr, DecidableEq

/-- `get_chat_data`: normalize either transport shape.  A JSON body always
yields `files = []`; a multipart form with a falsy `question` fails here with
400; any other content type fails with 400. -/
def get_chat_data (req : ChatRequest) : Except HTTPError ChatData :=
  if strStarts req.content_type "application/json" then
    match req.json_body with
    | some b => .ok ⟨b.question, b.mode.getD "hybrid", []⟩
    | none => .error ⟨400, "Invalid JSON body"⟩
  else if strStarts req.content_type "multipart/form-data" then
    if truthyOptStr req.form_question then
      .ok ⟨req.form_question, req.form_mode, req.form_files⟩
    else
      .error ⟨400, "question is required"⟩
  else
    .error ⟨400, "Content-Type must be application/json or multipart/form-data"⟩

/-- Observable engine interactions of one chat request, in order. -/
inductive ChatEvent
  | ingest (doc_id : String) (filename : String)
  | query (question : String) (mode : String)
  deriving Repr, DecidableEq

/-- The chat response dict: `uploaded_documents`/`message` are only set when
attachments were processed. -/
structure ChatResponse where
  answer : String
  uploaded_documents : List DocResult
  message : Option String
  deriving Repr, DecidableEq

/-- The full mutable in-process state threaded through the services. -/
structure World where
  slot : CacheSlot
  docs : DocsMap
  fs : FS
  deriving Repr, DecidableEq

/-- `chat_in_workspace_service`: validate the question, resolve the cached
engine handle, ingest any attachments fully (in arrival order), then query.
Returns the event trace, the updated state and the outcome. -/
def chat_in_workspace_service (sys : SysEnv) (fresh : Nat) (ids : List String)
    (w : World) (workspace_id : String) (chat_data : ChatData) :
    List ChatEvent × World × Except HTTPError ChatResponse :=
  if !truthyOptStr chat_data.question then
    ([], w, .error ⟨400, "question is required"⟩)
  else
    match get_or_create_workspace_rag sys w.slot fresh workspace_id with
    | .error e => ([], w, .error e)
    | .ok (_, slot1) =>
      let paths := ensure_workspace_dirs sys.base workspace_id
      let fs1 := ensureDirsFS w.fs paths
      let doIngest :=
        match chat_data.files with
        | [] => false
        | f0 :: _ => f0.filename ≠ ""
      let step :=
        if doIngest then
          process_uploaded_files sys.engine workspace_id chat_data.files ids paths
            w.docs fs1
        else ([], w.docs, fs1)
      let uploaded_docs := step.1
      let w1 : World := ⟨slot1, step.2.1, step.2.2⟩
      let ingestEvents := uploaded_docs.map (fun d => ChatEvent.ingest d.id d.filename)
      let q := (chat_data.question).getD ""
      match sys.engine.aquery q chat_data.mode with
      | .error e =>
        (ingestEvents ++ [ChatEvent.query q chat_data.mode], w1,
          .error ⟨500, "Error processing chat with files: " ++ e⟩)
      | .ok ans =>
        (ingestEvents ++ [ChatEvent.query q chat_data.mode], w1,
          .ok ⟨ans, uploaded_docs,
            if uploaded_docs.isEmpty then none
            else some ("Processed " ++ toString uploaded_docs.length ++
              " files and answered your question")⟩)

/-- The `/workspaces/{id}/chat` route body: run the `get_chat_data`
dependency, then the service. -/
def chat_route (sys : SysEnv) (fresh : Nat) (ids : List String) (w : World)
    (workspace_id : String) (req : ChatRequest) :
    List ChatEvent × World × Except HTTPError ChatResponse :=
  match get_chat_data req with
  | .error e => ([], w, .error e)
  | .ok cd => chat_in_workspace_service sys fresh ids w workspace_id cd

/-! ## Deletion coordinator: `src/storage/delete_strategies.py` -/

/-- One `{success, error}` entry of a deletion-result dict. -/
structure CatResult where
  success : Bool
  error : Option String
  deriving Repr, DecidableEq

/-- The dict returned by `delete_document_everywhere`. -/
structure DocDeleteResults where
  doc_id : String
  vector_storage : CatResult
  graph_storage : CatResult
  kv_storage : CatResult
  doc_status : CatResult
  deriving Repr, DecidableEq

/-- Invoke a capability method: normal return reaches the
`success = True` assignment, an exception propagates to the enclosing
`try`. -/
def callThen (r : Except String Unit) : Except String Bool :=
  match r with
  | .ok _ => .ok true
  | .error e => .error e

/-- The `try` body for the vector category: probe
`rag.vector_storage.delete_by_doc_id`, falling back to
`rag.adelete_by_doc_id`; `false` when neither attribute exists. -/
def vectorAttempt (rag : LightRAGHandle) (doc_id : String) : Except String Bool :=
  match rag.vector_storage.bind (fun vs => vs.delete_by_doc_id) with
  | some f => callThen (f doc_id)
  | none =>
    match rag.adelete_by_doc_id with
    | some f => callThen (f doc_id)
    | none => .ok false

/-- The `try` body for the graph category. -/
def graphAttempt (rag : LightRAGHandle) (doc_id : String) : Except String Bool :=
  match rag.graph_storage.bind (fun gs => gs.delete_by_doc_id) with
  | some f => callThen (f doc_id)
  | none =>
    match rag.delete_graph_entities_by_doc_id with
    | some f => callThen (f doc_id)
    | none => .ok false

/-- The `try` body for the key-value category. -/
def kvAttempt (rag : LightRAGHandle) (doc_id : String) : Except String Bool :=
  match rag.kv_storage.bind (fun ks => ks.delete_by_doc_id) with
  | some f => callThen (f doc_id)
  | none =>
    match rag.kv_delete_profiles_by_doc_id with
    | some f => callThen (f doc_id)
    | none => .ok false

/-- The `try` body for the doc-status category. -/
def statusAttempt (rag : LightRAGHandle) (doc_id : String) : Except String Bool :=
  match rag.doc_status_storage.bind (fun ds => ds.mark_deleted) with
  | some f => callThen (f doc_id)
  | none =>
    match rag.mark_doc_deleted with
    | some f => callThen (f doc_id)
    | none => .ok false

/-- `try/except Exception` around one category: an exception is recorded as
`{success: False, error: str(e)}` and never re-raised. -/
def catchStep (attempt : Except String Bool) : Except String CatResult :=
  match attempt with
  | .ok b => .ok ⟨b, none⟩
  | .error e => .ok ⟨false, some e⟩

/-- The pure value `catchStep` always produces. -/
def guardVal (attempt : Except String Bool) : CatResult :=
  match attempt with
  | .ok b => ⟨b, none⟩
  | .error e => ⟨false, some e⟩

/-- The guarded `aclear_cache` call; its failure is only logged. -/
def clearCacheStep (rag : LightRAGHandle) : Except String Unit :=
  match rag.aclear_cache with
  | some (Except.error _) => .ok ()
  | some (Except.ok _) => .ok ()
  | none => .ok ()

/-- `delete_document_everywhere`: four independently guarded category
attempts, a guarded cache clear, then the aggregated result. -/
def delete_document_everywhere (rag : LightRAGHandle) (doc_id : String) :
    Except String DocDeleteResults := do
  let v ← catchStep (vectorAttempt rag doc_id)
  let g ← catchStep (graphAttempt rag doc_id)
  let k ← catchStep (kvAttempt rag doc_id)
  let st ← catchStep (statusAttempt rag doc_id)
  let _ ← clearCacheStep rag
  pure ⟨doc_id, v, g, k, st⟩

/-- The dict returned by `delete_workspace_data`. -/
structure WsDeleteResults where
  workspace_id : String
  vector_cleanup : CatResult
  graph_cleanup : CatResult
  kv_cleanup : CatResult
  doc_status_cleanup : CatResult
  deriving Repr, DecidableEq

/-- Workspace-level vector cleanup: needs `rag.vector_storage` with a
`delete_collection` method, called on `vectors_{workspace_id}`. -/
def wsVectorAttempt (rag : LightRAGHandle) (workspace_id : String) :
    Except String Bool :=
  match rag.vector_storage with
  | some vs =>
    match vs.delete_collection with
    | some f => callThen (f ("vectors_" ++ workspace_id))
    | none => .ok false
  | none => .ok false

/-- Workspace-level graph cleanup. -/
def wsGraphAttempt (rag : LightRAGHandle) (workspace_id : String) :
    Except String Bool :=
  match rag.graph_storage with
  | some gs =>
    match gs.delete_workspace with
    | some f => callThen (f workspace_id)
    | none => .ok false
  | none => .ok false

/-- Workspace-level key-value cleanup. -/
def wsKvAttempt (rag : LightRAGHandle) (workspace_id : String) :
    Except String Bool :=
  match rag.kv_storage with
  | some ks =>
    match ks.delete_workspace with
    | some f => callThen (f workspace_id)
    | none => .ok false
  | none => .ok false

/-- Workspace-level doc-status cleanup. -/
def wsStatusAttempt (rag : LightRAGHandle) (workspace_id : String) :
    Except String Bool :=
  match rag.doc_status_storage with
  | some ds =>
    match ds.delete_workspace with
    | some f => callThen (f workspace_id)
    | none => .ok false
  | none => .ok false

/-- `delete_workspace_data`: four independently guarded workspace-level
cleanup attempts, then the aggregated result. -/
def delete_workspace_data (rag : LightRAGHandle) (workspace_id : String) :
    Except String WsDeleteResults := do
  let v ← catchStep (wsVectorAttempt rag workspace_id)
  let g ← catchStep (wsGraphAttempt rag workspace_id)
  let k ← catchStep (wsKvAttempt rag workspace_id)
  let st ← catchStep (wsStatusAttempt rag workspace_id)
  pure ⟨workspace_id, v, g, k, st⟩

/-- The engine handle exposes none of the document-level capability methods
probed by `delete_document_everywhere`. -/
def NoDocCaps (rag : LightRAGHandle) : Prop :=
  rag.vector_storage.bind (fun vs => vs.delete_by_doc_id) = none ∧
  rag.adelete_by_doc_id = none ∧
  rag.graph_storage.bind (fun gs => gs.delete_by_doc_id) = none ∧
  rag.delete_graph_entities_by_doc_id = none ∧
  rag.kv_storage.bind (fun ks => ks.delete_by_doc_id) = none ∧
  rag.kv_delete_profiles_by_doc_id = none ∧
  rag.doc_status_storage.bind (fun ds => ds.mark_deleted) = none ∧
  rag.mark_doc_deleted = none

/-! ## Workspace / document services:
`src/services/workspace_service.py`, `src/services/document_service.py` -/

/-- A row of the `workspaces` metadata table. -/
structure WsRow where
  id : String
  name : String
  description : String
  created_at : String
  updated_at : String
  deriving Repr, DecidableEq

/-- `repos.workspaces.get_workspace` over explicit store contents. -/
def db_get_workspace (rows : List WsRow) (workspace_id : String) : Option WsRow :=
  rows.find? (fun r => r.id = workspace_id)

/-- The workspace-detail dict assembled by `get_workspace_info`. -/
structure WorkspaceInfo where
  id : String
  name : String
  description : String
  document_count : Nat
  storage_mode : String
  status : String
  created_at : String
  updated_at : String
  deriving Repr, DecidableEq

/-- `get_workspace_info`: missing row (or a store error) means 404; an engine
failure is caught by the blanket `except` and also falls through to 404. -/
def get_workspace_info (sys : SysEnv) (dbGet : Except String (Option WsRow))
    (fresh : Nat) (w : World) (workspace_id : String) :
    World × Except HTTPError WorkspaceInfo :=
  match dbGet with
  | .error _ => (w, .error ⟨404, "Workspace not found"⟩)
  | .ok none => (w, .error ⟨404, "Workspace not found"⟩)
  | .ok (some row) =>
    match get_or_create_workspace_rag sys w.slot fresh workspace_id with
    | .error _ => (w, .error ⟨404, "Workspace not found"⟩)
    | .ok (_, slot1) =>
      (⟨slot1, w.docs, w.fs⟩,
        .ok ⟨row.id, row.name, row.description,
          get_workspace_doc_count w.docs workspace_id, "external", "active",
          row.created_at, row.updated_at⟩)

/-- One entry of the document listing. -/
structure DocListing where
  id : String
  path : String
  filename : String
  deriving Repr, DecidableEq

/-- Keep the characters after the last slash. -/
def basenameAux : List Char → List Char → List Char
  | [], acc => acc.reverse
  | c :: cs, acc => if c = '/' then basenameAux cs [] else basenameAux cs (c :: acc)

/-- `os.path.basename` for slash-separated paths. -/
def basename (p : String) : String :=
  ⟨basenameAux p.data []⟩

/-- `list_workspace_documents_service`: 404 when the metadata row is absent
or the store errors; otherwise list the in-memory mapping. -/
def list_workspace_documents_service (dbGet : Except String (Option WsRow))
    (docs : DocsMap) (workspace_id : String) :
    Except HTTPError (List DocListing) :=
  match dbGet with
  | .error _ => .error ⟨404, "Workspace not found"⟩
  | .ok none => .error ⟨404, "Workspace not found"⟩
  | .ok (some _) =>
    .ok ((get_workspace_docs docs workspace_id).map
      (fun kv => ⟨kv.1, kv.2, basename kv.2⟩))

/-- The `{ok, documents}` response of the upload endpoint. -/
structure UploadResponse where
  ok : Bool
  documents : List DocResult
  deriving Repr, DecidableEq

/-- `upload_documents_service`: note that it performs NO metadata-store
existence check — it resolves the engine handle and processes directly. -/
def upload_documents_service (sys : SysEnv) (fresh : Nat) (ids : List String)
    (w : World) (workspace_id : String) (files : List UploadFile) :
    World × Except HTTPError UploadResponse :=
  match get_or_create_workspace_rag sys w.slot fresh workspace_id with
  | .error e => (w, .error e)
  | .ok (_, slot1) =>
    let paths := ensure_workspace_dirs sys.base workspace_id
    let fs1 := ensureDirsFS w.fs paths
    let step := process_uploaded_files sys.engine workspace_id files ids paths
      w.docs fs1
    (⟨slot1, step.2.1, step.2.2⟩, .ok ⟨true, step.1⟩)

/-- A plain `{ok, message}` response. -/
structure OkMessage where
  ok : Bool
  message : String
  deriving Repr, DecidableEq

/-- `delete_workspace_document_service`: workspace row and mapping entry are
required; remote cleanup is delegated to `delete_document_everywhere`; the
document directory and the mapping entry are then removed
unconditionally. -/
def delete_workspace_document_service (sys : SysEnv)
    (dbGet : Except String (Option WsRow)) (fresh : Nat) (w : World)
    (workspace_id doc_id : String) : World × Except HTTPError OkMessage :=
  match dbGet with
  | .error _ => (w, .error ⟨404, "Workspace not found"⟩)
  | .ok none => (w, .error ⟨404, "Workspace not found"⟩)
  | .ok (some _) =>
    if (alistGet (get_workspace_docs w.docs workspace_id) doc_id).isNone then
      (w, .error ⟨404, "Document not found in workspace"⟩)
    else
      match get_or_create_workspace_rag sys w.slot fresh workspace_id with
      | .error e => (w, .error ⟨500, "Error deleting document: " ++ e.detail⟩)
      | .ok (_, slot1) =>
        match delete_document_everywhere sys.lightrag doc_id with
        | .error e =>
          (⟨slot1, w.docs, w.fs⟩, .error ⟨500, "Error deleting document: " ++ e⟩)
        | .ok _dres =>
          let paths := ensure_workspace_dirs sys.base workspace_id
          let fs1 := ensureDirsFS w.fs paths
          let doc_dir := paths.uploads ++ "/" ++ doc_id
          let fs2 := rmtree fs1 doc_dir
          let docs1 := remove_workspace_doc w.docs workspace_id doc_id
          (⟨slot1, docs1, fs2⟩,
            .ok ⟨true, "Document " ++ doc_id ++ " deleted from workspace " ++
              workspace_id⟩)

/-- `delete_workspace_service`: requires the metadata row; best-effort remote
purge, cache clear, mapping drop, directory removal; the metadata-store
delete failure is caught, logged and IGNORED — the response is still
`{ok: True}`. -/
def delete_workspace_service (sys : SysEnv)
    (dbGet : Except String (Option WsRow)) (dbDel : Except String Bool)
    (fresh : Nat) (w : World) (workspace_id : String) :
    World × Except HTTPError OkMessage :=
  match dbGet with
  | .error _ => (w, .error ⟨404, "Workspace not found"⟩)
  | .ok none => (w, .error ⟨404, "Workspace not found"⟩)
  | .ok (some _) =>
    match get_or_create_workspace_rag sys w.slot fresh workspace_id with
    | .error e => (w, .error ⟨500, "Error deleting workspace: " ++ e.detail⟩)
    | .ok (_, slot1) =>
      match delete_workspace_data sys.lightrag workspace_id with
      | .error e =>
        (⟨slot1, w.docs, w.fs⟩, .error ⟨500, "Error deleting workspace: " ++ e⟩)
      | .ok _dres =>
        let slot2 :=
          if get_current_workspace_id slot1 = some workspace_id then
            clear_current_workspace slot1
          else slot1
        let docs1 := remove_workspace_docs w.docs workspace_id
        let paths := ensure_workspace_dirs sys.base workspace_id
        let fs1 := ensureDirsFS w.fs paths
        let fs2 := rmtree fs1 paths.workspace_dir
        let _dbres : Option Bool :=
          match dbDel with
          | .ok b => some b
          | .error _ => none
        (⟨slot2, docs1, fs2⟩,
          .ok ⟨true, "Workspace " ++ workspace_id ++ " deleted successfully"⟩)

/-! ## Concrete instances used to evaluate the model -/

/-- An environment with every variable set. -/
def envAllSet : Env := ⟨fun _ => some "set"⟩

/-- An environment in which only `NEO4J_URI` is set. -/
def envPartial : Env := ⟨fun v => if v = "NEO4J_URI" then some "bolt" else none⟩

/-- An engine whose calls all succeed. -/
def engineOk : Engine := ⟨fun _ _ _ _ => .ok (), fun q _m => .ok ("answer to " ++ q)⟩

/-- An engine whose document processing raises. -/
def engineIngestFail : Engine :=
  ⟨fun _ _ _ _ => .error "parse crashed", fun q _m => .ok ("answer to " ++ q)⟩

/-- A handle exposing none of the probed capability methods. -/
def noCapsHandle : LightRAGHandle := {}

/-- Fully healthy external system. -/
def sysAllOk : SysEnv := ⟨envAllSet, .ok (), engineOk, noCapsHandle, "./workspaces"⟩

/-- Healthy system whose engine fails ingestion. -/
def sysIngestFail : SysEnv :=
  ⟨envAllSet, .ok (), engineIngestFail, noCapsHandle, "./workspaces"⟩

/-- System with an incomplete configuration. -/
def sysPartial : SysEnv := ⟨envPartial, .ok (), engineOk, noCapsHandle, "./workspaces"⟩

/-- A concrete metadata row. -/
def row0 : WsRow := ⟨"w1", "nb", "demo", "t0", "t0"⟩

/-! ## Helper lemmas -/

theorem alistGet_put_self {α : Type} (l : List (String × α)) (k : String) (v : α) :
    alistGet (alistPut l k v) k = some v := by
  induction l with
  | nil => simp [alistPut, alistGet]
  | cons hd tl ih =>
    by_cases hk : hd.1 = k
    · simp [alistPut, alistGet, hk]
    · simp [alistPut, alistGet, hk, ih]

theorem alistGet_mem {α : Type} {l : List (String × α)} {k : String} {v : α}
    (h : alistGet l k = some v) : (k, v) ∈ l := by
  induction l with
  | nil => simp [alistGet] at h
  | cons hd tl ih =>
    by_cases hk : hd.1 = k
    · simp [alistGet, hk] at h
      have he : hd = (k, v) := by
        cases hd
        simp_all
      rw [he]
      exact List.mem_cons_self _ _
    · simp [alistGet, hk] at h
      exact List.mem_cons_of_mem _ (ih h)

theorem alistGet_not_mem {α : Type} {l : List (String × α)} {k : String}
    (h : k ∉ l.map Prod.fst) : alistGet l k = none := by
  induction l with
  | nil => rfl
  | cons hd tl ih =>
    simp only [List.map_cons, List.mem_cons] at h
    push_neg at h
    rw [alistGet, if_neg (fun he => h.1 he.symm)]
    exact ih h.2

theorem alistGet_del_self {α : Type} {l : List (String × α)} (k : String)
    (hnd : (l.map Prod.fst).Nodup) : alistGet (alistDel l k) k = none := by
  induction l with
  | nil => rfl
  | cons hd tl ih =>
    simp only [List.map_cons, List.nodup_cons] at hnd
    by_cases hk : hd.1 = k
    · rw [alistDel, if_pos hk]
      subst hk
      exact alistGet_not_mem hnd.1
    · rw [alistDel, if_neg hk, alistGet, if_neg hk]
      exact ih hnd.2

theorem get_docs_add_self (m : DocsMap) (w d p : String) :
    alistGet (get_workspace_docs (add_workspace_doc m w d p) w) d = some p := by
  unfold add_workspace_doc get_workspace_docs
  rw [alistGet_put_self]
  simp [alistGet_put_self]

theorem mem_fsAdd_self (l : FS) (p : String) : p ∈ fsAdd l p := by
  unfold fsAdd
  by_cases h : p ∈ l <;> simp [h]

theorem mem_fsAdd_of_mem {l : FS} {p : String} (q : String) (h : p ∈ l) :
    p ∈ fsAdd l q := by
  unfold fsAdd
  by_cases hq : q ∈ l <;> simp [hq, h]

theorem catchStep_eq (a : Except String Bool) :
    catchStep a = Except.ok (guardVal a) := by
  cases a <;> rfl

theorem clearCacheStep_ok (rag : LightRAGHandle) :
    clearCacheStep rag = Except.ok () := by
  unfold clearCacheStep
  rcases h : rag.aclear_cache with _ | r
  · rfl
  · cases r <;> rfl

theorem delete_document_everywhere_eq (rag : LightRAGHandle) (doc_id : String) :
    delete_document_everywhere rag doc_id =
      Except.ok ⟨doc_id, guardVal (vectorAttempt rag doc_id),
        guardVal (graphAttempt rag doc_id), guardVal (kvAttempt rag doc_id),
        guardVal (statusAttempt rag doc_id)⟩ := by
  unfold delete_document_everywhere
  rw [catchStep_eq, catchStep_eq, catchStep_eq, catchStep_eq, clearCacheStep_ok]
  rfl

theorem delete_workspace_data_eq (rag : LightRAGHandle) (workspace_id : String) :
    delete_workspace_data rag workspace_id =
      Except.ok ⟨workspace_id, guardVal (wsVectorAttempt rag workspace_id),
        guardVal (wsGraphAttempt rag workspace_id),
        guardVal (wsKvAttempt rag workspace_id),
        guardVal (wsStatusAttempt rag workspace_id)⟩ := by
  unfold delete_workspace_data
  rw [catchStep_eq, catchStep_eq, catchStep_eq, catchStep_eq]
  rfl

/-! ## Claim theorems -/

/-- C2: the engine cache slot's workspace id and handle are both present or
both absent in the initial state and after every `set` / `clear`; reading the
slot with a workspace id different from the stored one returns a cache miss
(`none`), never an error, and leaves the slot untouched. -/
theorem C2_cache_slot_invariant :
    SlotInv CacheSlot.init ∧
    (∀ (s : CacheSlot) (workspace_id : String) (rag : Nat),
      SlotInv (set_current_workspace_rag s workspace_id rag)) ∧
    (∀ s : CacheSlot, SlotInv (clear_current_workspace s)) ∧
    (∀ (s : CacheSlot) (workspace_id : String),
      s.current_workspace_id ≠ some workspace_id →
      get_current_workspace_rag s workspace_id = none) := by
  refine ⟨Or.inr ⟨rfl, rfl⟩, fun s wid rag => Or.inl ⟨rfl, rfl⟩,
    fun s => Or.inr ⟨rfl, rfl⟩, fun s wid h => ?_⟩
  unfold get_current_workspace_rag
  rw [if_neg]
  rintro ⟨h1, _⟩
  exact h h1

/-- Witness for C2 at a concrete slot and a mismatching workspace id. -/
theorem C2_cache_slot_invariant_witness :
    ((⟨some "A", some 0⟩ : CacheSlot).current_workspace_id ≠ some "B") ∧
    get_current_workspace_rag ⟨some "A", some 0⟩ "B" = none :=
  ⟨by decide, C2_cache_slot_invariant.2.2.2 ⟨some "A", some 0⟩ "B" (by decide)⟩

/-- C3: requesting the engine handle twice in a row for the same workspace id
returns the identical handle instance and leaves the slot unchanged; a
request for a different workspace id immediately after evicts the previous
workspace's handle from the single slot. -/
theorem C3_cache_reuse_and_eviction :
    (∀ (sys : SysEnv) (s : CacheSlot) (fresh1 fresh2 : Nat)
        (workspace_id : String) (h1 : Nat) (s1 : CacheSlot),
      get_or_create_workspace_rag sys s fresh1 workspace_id =
        Except.ok (h1, s1) →
      get_or_create_workspace_rag sys s1 fresh2 workspace_id =
        Except.ok (h1, s1)) ∧
    (∀ (sys : SysEnv) (s : CacheSlot) (fresh : Nat) (wa wb : String)
        (hb : Nat) (s2 : CacheSlot),
      wa ≠ wb →
      s.current_workspace_id = some wa →
      get_or_create_workspace_rag sys s fresh wb = Except.ok (hb, s2) →
      s2.current_workspace_id = some wb ∧
        get_current_workspace_rag s2 wa = none) := by
  constructor
  · intro sys s f1 f2 wid h1 s1 hcall
    unfold get_or_create_workspace_rag at hcall ⊢
    cases hg : get_current_workspace_rag s wid with
    | some r =>
      rw [hg] at hcall
      simp only [Except.ok.injEq, Prod.mk.injEq] at hcall
      obtain ⟨hh, hs⟩ := hcall
      subst hh
      subst hs
      rw [hg]
    | none =>
      rw [hg] at hcall
      cases hi : initialize_workspace_rag sys wid f1 with
      | error e => rw [hi] at hcall; simp at hcall
      | ok rag =>
        rw [hi] at hcall
        simp only [Except.ok.injEq, Prod.mk.injEq] at hcall
        obtain ⟨hh, hs⟩ := hcall
        rw [← hs, ← hh]
        have hg2 : get_current_workspace_rag
            (set_current_workspace_rag s wid rag) wid = some rag := by
          unfold get_current_workspace_rag set_current_workspace_rag
          rw [if_pos ⟨rfl, rfl⟩]
        rw [hg2]
  · intro sys s fresh wa wb hb s2 hne hsid hcall
    unfold get_or_create_workspace_rag at hcall
    have hg : get_current_workspace_rag s wb = none := by
      unfold get_current_workspace_rag
      rw [if_neg]
      rintro ⟨h1', _⟩
      rw [hsid] at h1'
      exact hne (Option.some.inj h1')
    rw [hg] at hcall
    cases hi : initialize_workspace_rag sys wb fresh with
    | error e => rw [hi] at hcall; simp at hcall
    | ok rag =>
      rw [hi] at hcall
      simp only [Except.ok.injEq, Prod.mk.injEq] at hcall
      obtain ⟨hh, hs⟩ := hcall
      rw [← hs]
      refine ⟨rfl, ?_⟩
      unfold get_current_workspace_rag set_current_workspace_rag
      rw [if_neg]
      rintro ⟨h1', _⟩
      exact hne (Option.some.inj h1').symm

/-- Witness for C3: same-workspace reuse at `"A"` and eviction when `"B"` is
requested next. -/
theorem C3_cache_reuse_and_eviction_witness :
    (get_or_create_workspace_rag sysAllOk ⟨some "A", some 0⟩ 1 "A"
      = Except.ok (0, ⟨some "A", some 0⟩)) ∧
    ((⟨some "B", some 1⟩ : CacheSlot).current_workspace_id = some "B" ∧
      get_current_workspace_rag ⟨some "B", some 1⟩ "A" = none) :=
  ⟨C3_cache_reuse_and_eviction.1 sysAllOk CacheSlot.init 0 1 "A" 0
      ⟨some "A", some 0⟩ rfl,
   C3_cache_reuse_and_eviction.2 sysAllOk ⟨some "A", some 0⟩ 1 "A" "B" 1
      ⟨some "B", some 1⟩ (by decide) rfl rfl⟩

/-- C1 as stated is false: document upload is workspace-scoped but performs
no metadata-store existence check.  With an empty metadata store (no row for
`"ghost"`), uploading to workspace `"ghost"` returns `{ok: True, ...}`
instead of a `NotFoundError`. -/
theorem C1_counterexample_upload_no_notfound :
    db_get_workspace [] "ghost" = none ∧
    (upload_documents_service sysAllOk 0 ["doc0"] ⟨CacheSlot.init, [], []⟩
        "ghost" [⟨"a.txt", "data"⟩]).2
      = Except.ok ⟨true, [⟨"doc0", "a.txt", "success",
          "Document doc0 processed successfully", none⟩]⟩ :=
  ⟨rfl, rfl⟩

/-- C1 amended: for a workspace id with no metadata-store row, get-detail,
delete-workspace and list-documents fail with `NotFoundError` (404); but
document upload and chat perform no metadata-store existence check at all —
with a working engine they proceed and succeed for a nonexistent workspace
id. -/
theorem C1_amended_notfound_coverage :
    (∀ (sys : SysEnv) (fresh : Nat) (w : World) (workspace_id : String),
      (get_workspace_info sys (Except.ok none) fresh w workspace_id).2
        = Except.error ⟨404, "Workspace not found"⟩) ∧
    (∀ (sys : SysEnv) (dbDel : Except String Bool) (fresh : Nat) (w : World)
        (workspace_id : String),
      (delete_workspace_service sys (Except.ok none) dbDel fresh w
          workspace_id).2
        = Except.error ⟨404, "Workspace not found"⟩) ∧
    (∀ (docs : DocsMap) (workspace_id : String),
      list_workspace_documents_service (Except.ok none) docs workspace_id
        = Except.error ⟨404, "Workspace not found"⟩) ∧
    (db_get_workspace [] "ghost" = none ∧
      (upload_documents_service sysAllOk 0 ["doc0"] ⟨CacheSlot.init, [], []⟩
          "ghost" [⟨"a.txt", "data"⟩]).2
        = Except.ok ⟨true, [⟨"doc0", "a.txt", "success",
            "Document doc0 processed successfully", none⟩]⟩) ∧
    (chat_route sysAllOk 0 [] ⟨CacheSlot.init, [], []⟩ "ghost"
        ⟨"application/json", some ⟨some "hi", none, []⟩, none, "hybrid", []⟩).2.2
      = Except.ok ⟨"answer to hi", [], none⟩ :=
  ⟨fun _ _ _ _ => rfl, fun _ _ _ _ _ => rfl, fun _ _ => rfl, ⟨rfl, rfl⟩, rfl⟩

/-- C4: when the engine's document-processing call raises after the file save
and mapping insertion, ingestion returns a record with status `"error"`
carrying the document id and the captured message, and neither the saved
file nor the in-memory mapping entry is rolled back: the document is still
listed for the workspace afterwards. -/
theorem C4_ingest_failure_no_rollback :
    ∀ (eng : Engine) (workspace_id : String) (file : UploadFile)
      (doc_id : String) (paths : WsPaths) (docs : DocsMap) (fs : FS)
      (msg : String),
      eng.process_document_complete
          (paths.uploads ++ "/" ++ doc_id ++ "/" ++ file.filename)
          paths.output doc_id "auto" = Except.error msg →
      (process_uploaded_files eng workspace_id [file] [doc_id] paths docs fs).1
          = [⟨doc_id, file.filename, "error",
              "Failed to process document " ++ doc_id, some msg⟩] ∧
      alistGet (get_workspace_docs
          (process_uploaded_files eng workspace_id [file] [doc_id] paths
            docs fs).2.1 workspace_id) doc_id
        = some (paths.uploads ++ "/" ++ doc_id ++ "/" ++ file.filename) ∧
      (paths.uploads ++ "/" ++ doc_id ++ "/" ++ file.filename)
        ∈ (process_uploaded_files eng workspace_id [file] [doc_id] paths
            docs fs).2.2 ∧
      (∀ row : WsRow, ∃ entries,
        list_workspace_documents_service (Except.ok (some row))
            (process_uploaded_files eng workspace_id [file] [doc_id] paths
              docs fs).2.1 workspace_id = Except.ok entries ∧
        (⟨doc_id, paths.uploads ++ "/" ++ doc_id ++ "/" ++ file.filename,
          basename (paths.uploads ++ "/" ++ doc_id ++ "/" ++ file.filename)⟩
            : DocListing) ∈ entries) := by
  intro eng wid file doc_id paths docs fs msg hfail
  have hstep : process_uploaded_files eng wid [file] [doc_id] paths docs fs
      = ([⟨doc_id, file.filename, "error",
            "Failed to process document " ++ doc_id, some msg⟩],
         add_workspace_doc docs wid doc_id
           (paths.uploads ++ "/" ++ doc_id ++ "/" ++ file.filename),
         fsAdd (fsAdd fs (paths.uploads ++ "/" ++ doc_id))
           (paths.uploads ++ "/" ++ doc_id ++ "/" ++ file.filename)) := by
    simp only [process_uploaded_files, save_uploaded_file,
      process_document_with_rag]
    rw [hfail]
    rfl
  rw [hstep]
  refine ⟨rfl, get_docs_add_self docs wid doc_id _, mem_fsAdd_self _ _, ?_⟩
  intro row
  refine ⟨_, rfl, ?_⟩
  exact List.mem_map_of_mem _
    (alistGet_mem (get_docs_add_self docs wid doc_id _))

/-- Witness for C4: a concrete upload whose engine call raises
`"parse crashed"`; the error record is returned and the mapping entry and
saved file survive. -/
theorem C4_ingest_failure_no_rollback_witness :
    engineIngestFail.process_document_complete
        ("./workspaces/w1/uploads" ++ "/" ++ "d0" ++ "/" ++ "a.txt")
        "./workspaces/w1/output" "d0" "auto" = Except.error "parse crashed" ∧
    (process_uploaded_files engineIngestFail "w1" [⟨"a.txt", "data"⟩] ["d0"]
        (ensure_workspace_dirs "./workspaces" "w1") [] []).1
      = [⟨"d0", "a.txt", "error", "Failed to process document d0",
          some "parse crashed"⟩] ∧
    alistGet (get_workspace_docs
        (process_uploaded_files engineIngestFail "w1" [⟨"a.txt", "data"⟩]
          ["d0"] (ensure_workspace_dirs "./workspaces" "w1") [] []).2.1 "w1")
        "d0" = some "./workspaces/w1/uploads/d0/a.txt" ∧
    "./workspaces/w1/uploads/d0/a.txt"
      ∈ (process_uploaded_files engineIngestFail "w1" [⟨"a.txt", "data"⟩]
          ["d0"] (ensure_workspace_dirs "./workspaces" "w1") [] []).2.2 := by
  have h := C4_ingest_failure_no_rollback engineIngestFail "w1"
    ⟨"a.txt", "data"⟩ "d0" (ensure_workspace_dirs "./workspaces" "w1") [] []
    "parse crashed" rfl
  exact ⟨rfl, h.1, h.2.1, h.2.2.1⟩

/-- C5: the configuration check reports exactly the unset required
variables — every one of them, not just the first — and engine construction
then fails with a configuration error whose message lists all of them. -/
theorem C5_config_check_enumerates_all_missing :
    ∀ sys : SysEnv,
      (∀ v, v ∈ validate_external_storage_config sys.env ↔
        v ∈ required_vars ∧ envTruthy (sys.env.getenv v) = false) ∧
      (validate_external_storage_config sys.env ≠ [] →
        ∀ (workspace_id : String) (fresh : Nat),
          initialize_workspace_rag sys workspace_id fresh
            = Except.error ⟨500,
                "External storage configuration incomplete. Missing: " ++
                String.intercalate ", "
                  (validate_external_storage_config sys.env)⟩) := by
  intro sys
  constructor
  · intro v
    unfold validate_external_storage_config
    rw [List.mem_filter]
    simp
  · intro hne wid fresh
    simp only [initialize_workspace_rag]
    rw [if_pos hne]

/-- Witness for C5: with only `NEO4J_URI` set, the check reports the other
four variables and construction fails with the full list in the message. -/
theorem C5_config_check_enumerates_all_missing_witness :
    validate_external_storage_config sysPartial.env
      = ["LLM_BINDING_API_KEY", "NEO4J_USERNAME", "NEO4J_PASSWORD",
         "POSTGRES_URI"] ∧
    initialize_workspace_rag sysPartial "w1" 0
      = Except.error ⟨500,
          "External storage configuration incomplete. Missing: LLM_BINDING_API_KEY, NEO4J_USERNAME, NEO4J_PASSWORD, POSTGRES_URI"⟩ :=
  ⟨by decide,
   (C5_config_check_enumerates_all_missing sysPartial).2 (by decide) "w1" 0⟩

/-! Chat transport helper lemmas. -/

theorem get_chat_data_json {req : ChatRequest} {b : JsonBody}
    (hct : req.content_type = "application/json") (hb : req.json_body = some b) :
    get_chat_data req = Except.ok ⟨b.question, b.mode.getD "hybrid", []⟩ := by
  unfold get_chat_data
  rw [hct, hb]
  rfl

theorem get_chat_data_multipart {req : ChatRequest}
    (hct : req.content_type = "multipart/form-data") :
    get_chat_data req =
      (if truthyOptStr req.form_question then
        Except.ok ⟨req.form_question, req.form_mode, req.form_files⟩
      else Except.error ⟨400, "question is required"⟩) := by
  unfold get_chat_data
  rw [hct]
  rfl

theorem chat_service_falsy_question {sys : SysEnv} {fresh : Nat}
    {ids : List String} {w : World} {workspace_id : String} {cd : ChatData}
    (hq : truthyOptStr cd.question = false) :
    chat_in_workspace_service sys fresh ids w workspace_id cd
      = ([], w, Except.error ⟨400, "question is required"⟩) := by
  unfold chat_in_workspace_service
  rw [hq]
  rfl

/-- C6: a chat request whose question is empty or absent fails with a 400
`ValidationError` on both transport shapes (structured JSON body and
multipart form), before any engine interaction. -/
theorem C6_empty_question_validation_error :
    ∀ (sys : SysEnv) (fresh : Nat) (ids : List String) (w : World)
      (workspace_id : String) (req : ChatRequest),
      (∀ b : JsonBody, req.content_type = "application/json" →
        req.json_body = some b →
        (b.question = none ∨ b.question = some "") →
        chat_route sys fresh ids w workspace_id req
          = ([], w, Except.error ⟨400, "question is required"⟩)) ∧
      (req.content_type = "multipart/form-data" →
        (req.form_question = none ∨ req.form_question = some "") →
        chat_route sys fresh ids w workspace_id req
          = ([], w, Except.error ⟨400, "question is required"⟩)) := by
  intro sys fresh ids w wid req
  have hq_of : ∀ q : Option String, (q = none ∨ q = some "") →
      truthyOptStr q = false := by
    rintro q (h | h) <;> rw [h] <;> rfl
  constructor
  · intro b hct hb hq
    unfold chat_route
    rw [get_chat_data_json hct hb]
    exact chat_service_falsy_question (hq_of b.question hq)
  · intro hct hq
    unfold chat_route
    rw [get_chat_data_multipart hct, hq_of _ hq]
    rfl

/-- Witness for C6: a JSON request with `question: ""` and a multipart
request with an empty `question` field both fail with 400. -/
theorem C6_empty_question_validation_error_witness :
    chat_route sysAllOk 0 [] ⟨CacheSlot.init, [], []⟩ "w1"
        ⟨"application/json", some ⟨some "", none, []⟩, none, "hybrid", []⟩
      = ([], ⟨CacheSlot.init, [], []⟩,
          Except.error ⟨400, "question is required"⟩) ∧
    chat_route sysAllOk 0 [] ⟨CacheSlot.init, [], []⟩ "w1"
        ⟨"multipart/form-data", none, some "", "hybrid", []⟩
      = ([], ⟨CacheSlot.init, [], []⟩,
          Except.error ⟨400, "question is required"⟩) :=
  ⟨(C6_empty_question_validation_error sysAllOk 0 [] ⟨CacheSlot.init, [], []⟩
      "w1" ⟨"application/json", some ⟨some "", none, []⟩, none, "hybrid", []⟩).1
      ⟨some "", none, []⟩ rfl rfl (Or.inr rfl),
   (C6_empty_question_validation_error sysAllOk 0 [] ⟨CacheSlot.init, [], []⟩
      "w1" ⟨"multipart/form-data", none, some "", "hybrid", []⟩).2
      rfl (Or.inr rfl)⟩

/-- The ingestion events of `process_uploaded_files` are exactly the files
zipped with the generated ids, in arrival order. -/
theorem process_uploaded_files_events (eng : Engine) (workspace_id : String) :
    ∀ (files : List UploadFile) (ids : List String) (paths : WsPaths)
      (docs : DocsMap) (fs : FS),
      (process_uploaded_files eng workspace_id files ids paths docs fs).1.map
          (fun d => ChatEvent.ingest d.id d.filename)
        = List.zipWith (fun (f : UploadFile) (i : String) =>
            ChatEvent.ingest i f.filename) files ids := by
  intro files
  induction files with
  | nil => intro ids paths docs fs; cases ids <;> rfl
  | cons f more ih =>
    intro ids paths docs fs
    cases ids with
    | nil => rfl
    | cons i moreIds =>
      simp only [process_uploaded_files, save_uploaded_file, List.map_cons,
        List.zipWith_cons_cons, List.cons.injEq]
      exact ⟨trivial, ih moreIds paths _ _⟩

/-- A chat-request record with no files never produces an ingestion
event. -/
theorem chat_service_no_files_no_ingest {sys : SysEnv} {fresh : Nat}
    {ids : List String} {w : World} {workspace_id : String} {cd : ChatData}
    (hf : cd.files = []) (d f : String) :
    ChatEvent.ingest d f ∉
      (chat_in_workspace_service sys fresh ids w workspace_id cd).1 := by
  cases hq : truthyOptStr cd.question with
  | false => simp [chat_in_workspace_service, hq]
  | true =>
    cases hoc : get_or_create_workspace_rag sys w.slot fresh workspace_id with
    | error e => simp [chat_in_workspace_service, hq, hoc]
    | ok pr =>
      obtain ⟨h1, slot1⟩ := pr
      cases haq : sys.engine.aquery (cd.question.getD "") cd.mode with
      | error e => simp [chat_in_workspace_service, hq, hoc, hf, haq]
      | ok ans => simp [chat_in_workspace_service, hq, hoc, hf, haq]

/-- C7: a structured-JSON chat request normalizes to an empty file list —
its attachment fields are ignored and no ingestion event ever occurs — while
a multipart request with attachments ingests them all, in arrival order,
strictly before the single query event. -/
theorem C7_json_never_ingests_multipart_order :
    (∀ (sys : SysEnv) (fresh : Nat) (ids : List String) (w : World)
        (workspace_id : String) (req : ChatRequest) (b : JsonBody),
      req.content_type = "application/json" → req.json_body = some b →
      (∀ cd, get_chat_data req = Except.ok cd → cd.files = []) ∧
      (∀ d f, ChatEvent.ingest d f ∉
        (chat_route sys fresh ids w workspace_id req).1)) ∧
    (∀ (sys : SysEnv) (fresh : Nat) (ids : List String) (w : World)
        (workspace_id : String) (req : ChatRequest) (q : String)
        (f0 : UploadFile) (fmore : List UploadFile) (h1 : Nat)
        (slot1 : CacheSlot),
      req.content_type = "multipart/form-data" →
      req.form_question = some q → q ≠ "" →
      req.form_files = f0 :: fmore → f0.filename ≠ "" →
      get_or_create_workspace_rag sys w.slot fresh workspace_id
        = Except.ok (h1, slot1) →
      (chat_route sys fresh ids w workspace_id req).1
        = List.zipWith (fun (f : UploadFile) (i : String) =>
            ChatEvent.ingest i f.filename) (f0 :: fmore) ids
          ++ [ChatEvent.query q req.form_mode]) := by
  constructor
  · intro sys fresh ids w wid req b hct hb
    constructor
    · intro cd hcd
      rw [get_chat_data_json hct hb] at hcd
      simp only [Except.ok.injEq] at hcd
      rw [← hcd]
    · intro d f
      unfold chat_route
      rw [get_chat_data_json hct hb]
      exact chat_service_no_files_no_ingest rfl d f
  · intro sys fresh ids w wid req q f0 fmore h1 slot1 hct hfq hqne hff hf0 hoc
    have htq2 : truthyOptStr (some q) = true := by
      unfold truthyOptStr
      exact decide_eq_true hqne
    have htq : truthyOptStr req.form_question = true := by
      rw [hfq]
      exact htq2
    have hdo : decide (f0.filename ≠ "") = true := decide_eq_true hf0
    unfold chat_route
    rw [get_chat_data_multipart hct, htq]
    rw [if_pos rfl]
    cases haq : sys.engine.aquery q req.form_mode with
    | error e =>
      simp [chat_in_workspace_service, hfq, htq, htq2, hff, hdo, hoc, haq,
        process_uploaded_files_events]
    | ok ans =>
      simp [chat_in_workspace_service, hfq, htq, htq2, hff, hdo, hoc, haq,
        process_uploaded_files_events]

/-- Witness for C7: a JSON request carrying attachment fields yields an empty
normalized file list and no ingestion event; a multipart request with two
attachments ingests both, in order, before the query event. -/
theorem C7_json_never_ingests_multipart_order_witness :
    ((⟨some "hi", "hybrid", []⟩ : ChatData).files = []) ∧
    (ChatEvent.ingest "d0" "a.txt" ∉
      (chat_route sysAllOk 0 [] ⟨CacheSlot.init, [], []⟩ "w1"
        ⟨"application/json", some ⟨some "hi", none, [⟨"evil.txt", "x"⟩]⟩,
          none, "hybrid", []⟩).1) ∧
    ((chat_route sysAllOk 0 ["i1", "i2"] ⟨CacheSlot.init, [], []⟩ "w1"
        ⟨"multipart/form-data", none, some "hi", "hybrid",
          [⟨"a.txt", "x"⟩, ⟨"b.txt", "y"⟩]⟩).1
      = [ChatEvent.ingest "i1" "a.txt", ChatEvent.ingest "i2" "b.txt",
         ChatEvent.query "hi" "hybrid"]) :=
  ⟨(C7_json_never_ingests_multipart_order.1 sysAllOk 0 []
      ⟨CacheSlot.init, [], []⟩ "w1"
      ⟨"application/json", some ⟨some "hi", none, [⟨"evil.txt", "x"⟩]⟩,
        none, "hybrid", []⟩
      ⟨some "hi", none, [⟨"evil.txt", "x"⟩]⟩ rfl rfl).1
      ⟨some "hi", "hybrid", []⟩ rfl,
   (C7_json_never_ingests_multipart_order.1 sysAllOk 0 []
      ⟨CacheSlot.init, [], []⟩ "w1"
      ⟨"application/json", some ⟨some "hi", none, [⟨"evil.txt", "x"⟩]⟩,
        none, "hybrid", []⟩
      ⟨some "hi", none, [⟨"evil.txt", "x"⟩]⟩ rfl rfl).2 "d0" "a.txt",
   C7_json_never_ingests_multipart_order.2 sysAllOk 0 ["i1", "i2"]
      ⟨CacheSlot.init, [], []⟩ "w1"
      ⟨"multipart/form-data", none, some "hi", "hybrid",
        [⟨"a.txt", "x"⟩, ⟨"b.txt", "y"⟩]⟩
      "hi" ⟨"a.txt", "x"⟩ [⟨"b.txt", "y"⟩] 0 ⟨some "w1", some 0⟩
      rfl rfl (by decide) rfl (by decide) rfl⟩

theorem delete_document_everywhere_nocaps {rag : LightRAGHandle}
    (h : NoDocCaps rag) (doc_id : String) :
    delete_document_everywhere rag doc_id
      = Except.ok ⟨doc_id, ⟨false, none⟩, ⟨false, none⟩, ⟨false, none⟩,
          ⟨false, none⟩⟩ := by
  obtain ⟨h1, h2, h3, h4, h5, h6, h7, h8⟩ := h
  rw [delete_document_everywhere_eq]
  unfold vectorAttempt graphAttempt kvAttempt statusAttempt
  rw [h1, h2, h3, h4, h5, h6, h7, h8]
  rfl

theorem get_docs_remove_self {m : DocsMap} {workspace_id doc_id : String}
    (hin : (alistGet (get_workspace_docs m workspace_id) doc_id).isSome)
    (hnd : ((get_workspace_docs m workspace_id).map Prod.fst).Nodup) :
    alistGet (get_workspace_docs
        (remove_workspace_doc m workspace_id doc_id) workspace_id) doc_id
      = none := by
  cases hm : alistGet m workspace_id with
  | none =>
    exfalso
    unfold get_workspace_docs at hin
    rw [hm] at hin
    simp [alistGet] at hin
  | some inner =>
    have hgw : get_workspace_docs m workspace_id = inner := by
      unfold get_workspace_docs
      rw [hm]
      rfl
    rw [hgw] at hin hnd
    have hred : remove_workspace_doc m workspace_id doc_id
        = alistPut m workspace_id (alistDel inner doc_id) := by
      unfold remove_workspace_doc
      simp only [hm]
      rw [if_pos hin]
    rw [hred]
    unfold get_workspace_docs
    rw [alistGet_put_self]
    exact alistGet_del_self doc_id hnd

theorem rmtree_excludes (fs : FS) (dir : String) :
    ∀ p ∈ rmtree fs dir, ¬(p = dir ∨ strStarts p (dir ++ "/") = true) := by
  intro p hp
  unfold rmtree at hp
  rw [List.mem_filter] at hp
  have hb := hp.2
  rw [Bool.not_eq_true'] at hb
  intro hcon
  rcases hcon with hcon | hcon
  · have : decide (p = dir ∨ strStarts p (dir ++ "/") = true) = true :=
      decide_eq_true (Or.inl hcon)
    rw [this] at hb
    exact Bool.true_eq_false.mp hb
  · have : decide (p = dir ∨ strStarts p (dir ++ "/") = true) = true :=
      decide_eq_true (Or.inr hcon)
    rw [this] at hb
    exact Bool.true_eq_false.mp hb

/-- C8: when the engine handle exposes none of the expected capability
methods, document deletion still removes all local state — the mapping entry
and everything at or under the on-disk document directory are gone — the
service reports success, and the per-category result returned by the
deletion coordinator marks all four storage categories unsuccessful. -/
theorem C8_delete_all_probes_fail_local_cleanup :
    ∀ (sys : SysEnv) (row : WsRow) (fresh : Nat) (w : World)
      (workspace_id doc_id p : String) (h1 : Nat) (slot1 : CacheSlot),
      NoDocCaps sys.lightrag →
      alistGet (get_workspace_docs w.docs workspace_id) doc_id = some p →
      ((get_workspace_docs w.docs workspace_id).map Prod.fst).Nodup →
      get_or_create_workspace_rag sys w.slot fresh workspace_id
        = Except.ok (h1, slot1) →
      delete_document_everywhere sys.lightrag doc_id
        = Except.ok ⟨doc_id, ⟨false, none⟩, ⟨false, none⟩, ⟨false, none⟩,
            ⟨false, none⟩⟩ ∧
      (delete_workspace_document_service sys (Except.ok (some row)) fresh w
          workspace_id doc_id).2
        = Except.ok ⟨true, "Document " ++ doc_id ++ " deleted from workspace "
            ++ workspace_id⟩ ∧
      alistGet (get_workspace_docs
          (delete_workspace_document_service sys (Except.ok (some row)) fresh
            w workspace_id doc_id).1.docs workspace_id) doc_id = none ∧
      (∀ pth ∈ (delete_workspace_document_service sys (Except.ok (some row))
          fresh w workspace_id doc_id).1.fs,
        ¬(pth = sys.base ++ "/" ++ workspace_id ++ "/uploads" ++ "/" ++ doc_id ∨
          strStarts pth ((sys.base ++ "/" ++ workspace_id ++ "/uploads" ++ "/"
            ++ doc_id) ++ "/") = true)) := by
  intro sys row fresh w wid doc_id p h1 slot1 hcaps hget hnd hoc
  have hsvc : delete_workspace_document_service sys (Except.ok (some row))
      fresh w wid doc_id
      = (⟨slot1, remove_workspace_doc w.docs wid doc_id,
          rmtree (ensureDirsFS w.fs (ensure_workspace_dirs sys.base wid))
            ((ensure_workspace_dirs sys.base wid).uploads ++ "/" ++ doc_id)⟩,
        Except.ok ⟨true, "Document " ++ doc_id ++ " deleted from workspace "
          ++ wid⟩) := by
    simp only [delete_workspace_document_service]
    rw [hget]
    rw [if_neg (by simp)]
    rw [hoc, delete_document_everywhere_nocaps hcaps]
  refine ⟨delete_document_everywhere_nocaps hcaps doc_id, ?_, ?_, ?_⟩
  · rw [hsvc]
  · rw [hsvc]
    exact get_docs_remove_self (by rw [hget]; rfl) hnd
  · rw [hsvc]
    exact rmtree_excludes _ _

/-- Witness for C8: a handle with no capability methods, one mapped document
`d0` in workspace `w1`; deletion reports success, all four categories are
unsuccessful, and the mapping entry is gone. -/
theorem C8_delete_all_probes_fail_local_cleanup_witness :
    alistGet (get_workspace_docs [("w1", [("d0", "p0")])] "w1") "d0"
      = some "p0" ∧
    delete_document_everywhere noCapsHandle "d0"
      = Except.ok ⟨"d0", ⟨false, none⟩, ⟨false, none⟩, ⟨false, none⟩,
          ⟨false, none⟩⟩ ∧
    (delete_workspace_document_service sysAllOk (Except.ok (some row0)) 0
        ⟨CacheSlot.init, [("w1", [("d0", "p0")])], []⟩ "w1" "d0").2
      = Except.ok ⟨true, "Document d0 deleted from workspace w1"⟩ ∧
    alistGet (get_workspace_docs
        (delete_workspace_document_service sysAllOk (Except.ok (some row0)) 0
          ⟨CacheSlot.init, [("w1", [("d0", "p0")])], []⟩ "w1" "d0").1.docs
        "w1") "d0" = none := by
  have h := C8_delete_all_probes_fail_local_cleanup sysAllOk row0 0
    ⟨CacheSlot.init, [("w1", [("d0", "p0")])], []⟩ "w1" "d0" "p0" 0
    ⟨some "w1", some 0⟩ ⟨rfl, rfl, rfl, rfl, rfl, rfl, rfl, rfl⟩ rfl
    (by decide) rfl
  exact ⟨rfl, h.1, h.2.1, h.2.2.1⟩

/-- C9: when the metadata-store row deletion itself fails after storage and
file cleanup, workspace deletion still returns overall success. -/
theorem C9_db_delete_failure_still_success :
    ∀ (sys : SysEnv) (row : WsRow) (dbErr : String) (fresh : Nat) (w : World)
      (workspace_id : String) (h1 : Nat) (slot1 : CacheSlot),
      get_or_create_workspace_rag sys w.slot fresh workspace_id
        = Except.ok (h1, slot1) →
      (delete_workspace_service sys (Except.ok (some row))
          (Except.error dbErr) fresh w workspace_id).2
        = Except.ok ⟨true, "Workspace " ++ workspace_id ++
            " deleted successfully"⟩ := by
  intro sys row dbErr fresh w wid h1 slot1 hoc
  unfold delete_workspace_service
  rw [hoc, delete_workspace_data_eq]

/-- Witness for C9: a concrete workspace whose metadata delete raises; the
service still answers `{ok: True}`. -/
theorem C9_db_delete_failure_still_success_witness :
    (delete_workspace_service sysAllOk (Except.ok (some row0))
        (Except.error "db connection lost") 0 ⟨CacheSlot.init, [], []⟩ "w1").2
      = Except.ok ⟨true, "Workspace w1 deleted successfully"⟩ :=
  C9_db_delete_failure_still_success sysAllOk row0 "db connection lost" 0
    ⟨CacheSlot.init, [], []⟩ "w1" 0 ⟨some "w1", some 0⟩ rfl

/-- C10: the deletion coordinators are total with respect to backend
behaviour — for every handle, whatever capability methods it exposes and
whatever exceptions those raise, both functions return an aggregated result
and never propagate an exception. -/
theorem C10_deletion_coordinators_total :
    ∀ (rag : LightRAGHandle) (doc_id workspace_id : String),
      (∃ r, delete_document_everywhere rag doc_id = Except.ok r) ∧
      (∃ r, delete_workspace_data rag workspace_id = Except.ok r) :=
  fun rag doc_id workspace_id =>
    ⟨⟨_, delete_document_everywhere_eq rag doc_id⟩,
     ⟨_, delete_workspace_data_eq rag workspace_id⟩⟩

end NotebookLM
